import Mathlib

/-!
Verification of the alt-text backend's generation orchestrator and
compliance scorer (`app/services/ai_vision.py`), via a shallow embedding.

Modelling conventions:
* Python `str` is Lean `String`; `str.strip()` is `pyStrip` (drop leading
  and trailing whitespace), `str.lower()`/`str.upper()` are per-character
  maps (faithful on ASCII, where all closed string constants of the code
  live); `len` is `String.length` (both count code points).
* Python floats here only ever hold small decimal constants and results of
  exact integer subtraction, so they are modelled by `ℚ`.
* `round(x, 1)` is modelled by `pyRound1`; Python rounds halves to even,
  but every value reaching it in this code is an integer, where the two
  conventions agree.
* The HTTP call of the orchestrator is abstracted by an oracle giving, per
  attempt index, either a response (status code, body text, extracted
  message content, elapsed milliseconds) or a raised exception.  The
  request payload (system prompt, messages, headers) does not influence
  any control flow inside `generate_alt_text`, so it is not modelled
  beyond the image-content branch that can raise.
-/

namespace AltText

/-- Per-character lowercasing, the model of Python `str.lower()`. -/
def pyLower (s : String) : String := String.mk (s.data.map Char.toLower)

/-- Per-character uppercasing, the model of Python `str.upper()`. -/
def pyUpper (s : String) : String := String.mk (s.data.map Char.toUpper)

/-- Model of Python `str.strip()`: drop leading and trailing whitespace. -/
def pyStrip (s : String) : String :=
  String.mk (((s.data.dropWhile Char.isWhitespace).reverse.dropWhile Char.isWhitespace).reverse)

/-- Model of Python `s.startswith(p)`. -/
def pyStartsWith (s p : String) : Bool := p.data.isPrefixOf s.data

/-- Helper for substring search: does `n` occur as a contiguous sublist of `h`? -/
def substrAux (n : List Char) : List Char → Bool
  | [] => n.isEmpty
  | c :: t => n.isPrefixOf (c :: t) || substrAux n t

/-- Model of Python `needle in hay` on strings: substring containment. -/
def containsSub (hay needle : String) : Bool := substrAux needle.data hay.data

/-- Helper for `pySplit`: accumulate the current field (reversed). -/
def pySplitAux (sep : Char) : List Char → List Char → List String
  | [], acc => [String.mk acc.reverse]
  | c :: rest, acc =>
    if c == sep then String.mk acc.reverse :: pySplitAux sep rest []
    else pySplitAux sep rest (c :: acc)

/-- Model of Python `s.split(sep)` for a one-character separator.
`pySplit sep "" = [""]`, exactly as in Python. -/
def pySplit (sep : Char) (s : String) : List String := pySplitAux sep s.data []

/-- The double-quote character. -/
def dquote : Char := Char.ofNat 34

/-- The single-quote character. -/
def squote : Char := Char.ofNat 39

/-- Model of Python `s.strip(c)` for a single-character `c`: remove every
leading and trailing occurrence of `c`. -/
def stripChar (c : Char) (s : String) : String :=
  String.mk (((s.data.dropWhile (· == c)).reverse.dropWhile (· == c)).reverse)

/-- The orchestrator's quote cleanup: `alt_text.strip('"').strip("'")`. -/
def stripQuotes (s : String) : String := stripChar squote (stripChar dquote s)

/-- Is `c` one of the two quote characters the cleanup removes? -/
def isQuoteChar (c : Char) : Bool := c == dquote || c == squote

/-- `s` has no surrounding quote characters: neither its first nor its
last character is a single or double quote. -/
def noSurroundQuotes (s : String) : Bool :=
  (match s.data.head? with
   | none => true
   | some a => !(isQuoteChar a)) &&
  (match s.data.getLast? with
   | none => true
   | some b => !(isQuoteChar b))

/-- Python truthiness of an `Optional[str]`: `None` and `""` are falsy. -/
def truthy : Option String → Bool
  | none => false
  | some s => s ≠ ""

/-- Model of Python `round(q, 1)`.  Python rounds halves to even; every
score reaching this function is integral, where floor of `x + 1/2` agrees. -/
def pyRound1 (q : ℚ) : ℚ := ((⌊q * 10 + 1 / 2⌋ : ℤ) : ℚ) / 10

/-! ## Compliance scorer (`analyze_existing_alt_text`) -/

/-- Result shape of `analyze_existing_alt_text`. -/
structure Assessment where
  score : ℚ
  status : String
  issues : List String
  recommendation : String
deriving DecidableEq, Repr

/-- The redundant-lead-in strings checked by `str.startswith`. -/
def redundantStarts : List String := ["image of", "picture of", "photo of", "img"]

/-- The closed set of generic terms. -/
def genericTerms : List String :=
  ["image", "photo", "picture", "icon", "logo", "graphic", "banner", "placeholder"]

/-- The image-file extensions searched for as substrings. -/
def imageExts : List String := [".jpg", ".png", ".gif", ".svg", ".webp", ".bmp"]

/-- Issue text for the redundant-prefix rule. -/
def redundantMsg : String := "Starts with redundant prefix (e.g., \x27Image of\x27)"

/-- Issue text for the too-short rule (embeds the length, as the f-string does). -/
def shortMsg (t : String) : String :=
  "Too short (" ++ toString t.length ++ " chars) — may not be descriptive enough"

/-- Issue text for the too-long rule. -/
def longMsg (t : String) : String :=
  "Too long (" ++ toString t.length ++ " chars) — consider using longdesc for complex images"

/-- Issue text for the generic-term rule. -/
def genericMsg : String := "Generic/non-descriptive alt text"

/-- Issue text for the filename-leakage rule. -/
def filenameMsg : String := "Contains filename instead of description"

/-- Issue text for the all-caps rule. -/
def capsMsg : String := "All uppercase text — poor readability for screen readers"

/-- Issue text for missing alt text. -/
def missingMsg : String := "Alt text is completely missing"

/-- `alt_text.lower().startswith(("image of", "picture of", "photo of", "img"))` -/
def condRedundant (t : String) : Bool :=
  redundantStarts.any (fun p => pyStartsWith (pyLower t) p)

/-- `len(alt_text) < 10` -/
def condShort (t : String) : Bool := decide (t.length < 10)

/-- `len(alt_text) > 250` -/
def condLong (t : String) : Bool := decide (t.length > 250)

/-- `alt_text.lower() in ("image", "photo", ...)` — note: not trimmed. -/
def condGeneric (t : String) : Bool := genericTerms.contains (pyLower t)

/-- `any(ext in alt_text.lower() for ext in (".jpg", ...))` -/
def condFilename (t : String) : Bool := imageExts.any (fun e => containsSub (pyLower t) e)

/-- `alt_text == alt_text.upper() and len(alt_text) > 5` -/
def condCaps (t : String) : Bool := (t == pyUpper t) && decide (t.length > 5)

/-- Embedding of `analyze_existing_alt_text` (the `image_url` and
`wcag_level` parameters of the Python function are unused by its body). -/
def analyze_existing_alt_text (alt_text : String) : Assessment :=
  if alt_text = "" || pyStrip alt_text = "" then
    { score := 0
      status := "missing"
      issues := [missingMsg]
      recommendation := "Add descriptive alt text that conveys the image content and purpose" }
  else
    let issues0 : List String := []
    let score0 : ℚ := 100
    let issues1 := if condRedundant alt_text then issues0 ++ [redundantMsg] else issues0
    let score1 := if condRedundant alt_text then score0 - 15 else score0
    let issues2 := if condShort alt_text then issues1 ++ [shortMsg alt_text] else issues1
    let score2 := if condShort alt_text then score1 - 25 else score1
    let issues3 := if condLong alt_text then issues2 ++ [longMsg alt_text] else issues2
    let score3 := if condLong alt_text then score2 - 10 else score2
    let issues4 := if condGeneric alt_text then issues3 ++ [genericMsg] else issues3
    let score4 := if condGeneric alt_text then score3 - 40 else score3
    let issues5 := if condFilename alt_text then issues4 ++ [filenameMsg] else issues4
    let score5 := if condFilename alt_text then score4 - 50 else score4
    let issues6 := if condCaps alt_text then issues5 ++ [capsMsg] else issues5
    let score6 := if condCaps alt_text then score5 - 10 else score5
    let scoreClamped := max 0 score6
    let status :=
      if scoreClamped ≥ 80 then "compliant"
      else if scoreClamped ≥ 40 then "poor"
      else "non_compliant"
    { score := pyRound1 scoreClamped
      status := status
      issues := if issues6 = [] then ["Alt text meets basic compliance standards"] else issues6
      recommendation :=
        if scoreClamped ≥ 80 then "Alt text is acceptable"
        else "Consider improving alt text to better describe the image content" }

/-- Points deducted by the redundant-prefix rule. -/
def penRedundant (t : String) : ℚ := if condRedundant t then 15 else 0

/-- Points deducted by the too-short rule. -/
def penShort (t : String) : ℚ := if condShort t then 25 else 0

/-- Points deducted by the too-long rule. -/
def penLong (t : String) : ℚ := if condLong t then 10 else 0

/-- Points deducted by the generic-term rule. -/
def penGeneric (t : String) : ℚ := if condGeneric t then 40 else 0

/-- Points deducted by the filename-leakage rule. -/
def penFilename (t : String) : ℚ := if condFilename t then 50 else 0

/-- Points deducted by the all-caps rule. -/
def penCaps (t : String) : ℚ := if condCaps t then 10 else 0

/-- The pre-rounding score of a non-blank text: 100 minus the compounded
penalties, clamped below at 0. -/
def rawScore (t : String) : ℚ :=
  max 0 (100 - penRedundant t - penShort t - penLong t - penGeneric t - penFilename t - penCaps t)

/-- The issue list of a non-blank text before the empty-list replacement:
one entry per triggered rule, in rule-evaluation order. -/
def ruleIssues (t : String) : List String :=
  (if condRedundant t then [redundantMsg] else []) ++
  (if condShort t then [shortMsg t] else []) ++
  (if condLong t then [longMsg t] else []) ++
  (if condGeneric t then [genericMsg] else []) ++
  (if condFilename t then [filenameMsg] else []) ++
  (if condCaps t then [capsMsg] else [])

/-! ## Generation orchestrator (`generate_alt_text`) -/

/-- The configuration fields `generate_alt_text` reads.  The endpoint,
branding and header fields only shape the outbound request, which the
oracle abstracts, so they are not carried here. -/
structure Settings where
  OPENROUTER_API_KEY : String
  VISION_MODELS_FREE : String
  VISION_MODELS_PAID : String
deriving DecidableEq, Repr

/-- `CARBON_COST_PER_CALL`: estimated carbon cost per API call (mg CO2). -/
def CARBON_COST_PER_CALL : List (String × ℚ) := [("free", 0.5), ("paid", 2.0)]

/-- One comma-separated model list, parsed as the code does:
`[m.strip() for m in s.split(",") if m.strip()]`. -/
def parseModels (s : String) : List String :=
  ((pySplit (Char.ofNat 44) s).map pyStrip).filter (fun m => m ≠ "")

/-- `all_models`: every free-tier candidate, in configured order, then
every paid-tier candidate, in configured order, each tagged with its tier. -/
def all_models (cfg : Settings) : List (String × String) :=
  (parseModels cfg.VISION_MODELS_FREE).map (fun m => (m, "free")) ++
  (parseModels cfg.VISION_MODELS_PAID).map (fun m => (m, "paid"))

/-- The image part of the user message. -/
inductive ImageContent where
  | url (u : String)
  | dataUrl (mime : String) (b64 : String)
deriving DecidableEq, Repr

/-- The `if image_url: ... elif image_base64: ... else: raise` block.
`none` is the `ValueError` path. -/
def buildImageContent (image_url image_base64 : Option String) (mime_type : String) :
    Option ImageContent :=
  if truthy image_url then some (.url (image_url.getD ""))
  else if truthy image_base64 then
    some (.dataUrl mime_type (image_base64.getD ""))
  else none

/-- What one `client.post` interaction yields: either an HTTP response
(status code, body text, the extracted `choices[0].message.content`, and
the elapsed wall-clock time of this attempt in ms) or a raised exception. -/
inductive Outcome where
  | response (status_code : Nat) (text : String) (content : String) (elapsed_ms : Nat)
  | exn (msg : String)
deriving DecidableEq, Repr

/-- The error paths of `generate_alt_text`: the two `ValueError`s (missing
credential, missing image source) and the final `RuntimeError` carrying the
last observed per-backend error (`None` when no backend was attempted). -/
inductive GenError where
  | configError (msg : String)
  | inputError (msg : String)
  | allFailed (last_error : Option String)
deriving DecidableEq, Repr

/-- The successful return tuple
`(alt_text, model_used, confidence, carbon_cost_mg, processing_time_ms)`. -/
structure GenResult where
  alt_text : String
  model_used : String
  confidence : ℚ
  carbon_cost_mg : ℚ
  processing_time_ms : Nat
deriving DecidableEq, Repr

/-- The value returned from inside the 200 branch of the loop. -/
def successResult (model_name tier content : String) (elapsed_ms : Nat) : GenResult :=
  { alt_text := stripQuotes (pyStrip content)
    model_used := model_name
    confidence := if tier = "paid" then 0.92 else 0.85
    carbon_cost_mg := ((CARBON_COST_PER_CALL.lookup tier).getD 1.0)
    processing_time_ms := elapsed_ms }

/-- The candidate loop of `generate_alt_text`.  `i` is the index of the
next attempt in the oracle; the second component of the result is the list
of backends actually invoked, in order.  An exhausted list yields the
`last_error` observed (the payload of the final `RuntimeError`). -/
def runModels (oracle : Nat → Outcome) :
    List (String × String) → Nat → Option String →
    Except (Option String) GenResult × List String
  | [], _, last_error => (.error last_error, [])
  | (model_name, tier) :: rest, i, _last_error =>
    match oracle i with
    | .response status_code text content elapsed_ms =>
      if status_code = 200 then
        (.ok (successResult model_name tier content elapsed_ms), [model_name])
      else if status_code = 429 then
        let r := runModels oracle rest (i + 1) (some ("Rate limited: " ++ text))
        (r.1, model_name :: r.2)
      else
        let r := runModels oracle rest (i + 1) (some (toString status_code ++ ": " ++ text))
        (r.1, model_name :: r.2)
    | .exn msg =>
      let r := runModels oracle rest (i + 1) (some msg)
      (r.1, model_name :: r.2)

/-- Embedding of `generate_alt_text`, instrumented with the trace of
invoked backends (second component; empty on the early `ValueError`s). -/
def generate_with_trace (cfg : Settings) (oracle : Nat → Outcome)
    (image_url image_base64 : Option String) (mime_type : String) :
    Except GenError GenResult × List String :=
  if cfg.OPENROUTER_API_KEY = "" then
    (.error (.configError "OPENROUTER_API_KEY is not configured"), [])
  else
    match buildImageContent image_url image_base64 mime_type with
    | none => (.error (.inputError "Either image_url or image_base64 must be provided"), [])
    | some _ =>
      let r := runModels oracle (all_models cfg) 0 none
      match r.1 with
      | .ok res => (.ok res, r.2)
      | .error last_error => (.error (.allFailed last_error), r.2)

/-- `generate_alt_text` proper: the trace forgotten. -/
def generate_alt_text (cfg : Settings) (oracle : Nat → Outcome)
    (image_url image_base64 : Option String) (mime_type : String) :
    Except GenError GenResult :=
  (generate_with_trace cfg oracle image_url image_base64 mime_type).1

/-- An attempt the loop moves past: any non-200 response or an exception. -/
def isFailureOutcome : Outcome → Bool
  | .response status_code _ _ _ => status_code != 200
  | .exn _ => true

/-! ## Helper lemmas: scorer -/

theorem pyRound1_int (n : ℤ) : pyRound1 (n : ℚ) = n := by
  unfold pyRound1
  have h : ⌊(n : ℚ) * 10 + 1 / 2⌋ = 10 * n := by
    rw [Int.floor_eq_iff]
    constructor
    · push_cast
      nlinarith
    · push_cast
      nlinarith
  rw [h]
  push_cast
  ring

theorem penRedundant_nonneg (t : String) : 0 ≤ penRedundant t := by
  unfold penRedundant
  split_ifs <;> norm_num

theorem penShort_nonneg (t : String) : 0 ≤ penShort t := by
  unfold penShort
  split_ifs <;> norm_num

theorem penLong_nonneg (t : String) : 0 ≤ penLong t := by
  unfold penLong
  split_ifs <;> norm_num

theorem penGeneric_nonneg (t : String) : 0 ≤ penGeneric t := by
  unfold penGeneric
  split_ifs <;> norm_num

theorem penFilename_nonneg (t : String) : 0 ≤ penFilename t := by
  unfold penFilename
  split_ifs <;> norm_num

theorem penCaps_nonneg (t : String) : 0 ≤ penCaps t := by
  unfold penCaps
  split_ifs <;> norm_num

theorem exists_int_rawScore (t : String) : ∃ n : ℤ, rawScore t = (n : ℚ) := by
  have h1 : ∃ a : ℤ, penRedundant t = (a : ℚ) := by
    unfold penRedundant
    split_ifs
    exacts [⟨15, by norm_num⟩, ⟨0, by norm_num⟩]
  have h2 : ∃ a : ℤ, penShort t = (a : ℚ) := by
    unfold penShort
    split_ifs
    exacts [⟨25, by norm_num⟩, ⟨0, by norm_num⟩]
  have h3 : ∃ a : ℤ, penLong t = (a : ℚ) := by
    unfold penLong
    split_ifs
    exacts [⟨10, by norm_num⟩, ⟨0, by norm_num⟩]
  have h4 : ∃ a : ℤ, penGeneric t = (a : ℚ) := by
    unfold penGeneric
    split_ifs
    exacts [⟨40, by norm_num⟩, ⟨0, by norm_num⟩]
  have h5 : ∃ a : ℤ, penFilename t = (a : ℚ) := by
    unfold penFilename
    split_ifs
    exacts [⟨50, by norm_num⟩, ⟨0, by norm_num⟩]
  have h6 : ∃ a : ℤ, penCaps t = (a : ℚ) := by
    unfold penCaps
    split_ifs
    exacts [⟨10, by norm_num⟩, ⟨0, by norm_num⟩]
  obtain ⟨a1, e1⟩ := h1
  obtain ⟨a2, e2⟩ := h2
  obtain ⟨a3, e3⟩ := h3
  obtain ⟨a4, e4⟩ := h4
  obtain ⟨a5, e5⟩ := h5
  obtain ⟨a6, e6⟩ := h6
  refine ⟨max 0 (100 - a1 - a2 - a3 - a4 - a5 - a6), ?_⟩
  unfold rawScore
  rw [e1, e2, e3, e4, e5, e6]
  push_cast
  rfl

theorem pyRound1_rawScore (t : String) : pyRound1 (rawScore t) = rawScore t := by
  obtain ⟨n, hn⟩ := exists_int_rawScore t
  rw [hn, pyRound1_int]

theorem rawScore_nonneg (t : String) : 0 ≤ rawScore t := le_max_left _ _

theorem rawScore_le_100 (t : String) : rawScore t ≤ 100 := by
  unfold rawScore
  apply max_le
  · norm_num
  · have := penRedundant_nonneg t
    have := penShort_nonneg t
    have := penLong_nonneg t
    have := penGeneric_nonneg t
    have := penFilename_nonneg t
    have := penCaps_nonneg t
    linarith

theorem analyze_blank_eq (t : String) (hb : (t = "" || pyStrip t = "") = true) :
    analyze_existing_alt_text t =
      { score := 0
        status := "missing"
        issues := [missingMsg]
        recommendation :=
          "Add descriptive alt text that conveys the image content and purpose" } := by
  unfold analyze_existing_alt_text
  simp [hb]

theorem analyze_score_eq (t : String) (hb : (t = "" || pyStrip t = "") = false) :
    (analyze_existing_alt_text t).score = pyRound1 (rawScore t) := by
  unfold analyze_existing_alt_text rawScore penRedundant penShort penLong penGeneric
    penFilename penCaps
  rw [hb]
  cases h1 : condRedundant t <;> cases h2 : condShort t <;> cases h3 : condLong t <;>
    cases h4 : condGeneric t <;> cases h5 : condFilename t <;> cases h6 : condCaps t <;>
    simp

theorem analyze_issues_eq (t : String) (hb : (t = "" || pyStrip t = "") = false) :
    (analyze_existing_alt_text t).issues =
      (if ruleIssues t = [] then ["Alt text meets basic compliance standards"]
       else ruleIssues t) := by
  unfold analyze_existing_alt_text ruleIssues
  rw [hb]
  cases h1 : condRedundant t <;> cases h2 : condShort t <;> cases h3 : condLong t <;>
    cases h4 : condGeneric t <;> cases h5 : condFilename t <;> cases h6 : condCaps t <;>
    simp

/-! ## Helper lemmas: quote stripping -/

theorem stripChar_eq_self (c : Char) (s : String)
    (h1 : ∀ a, s.data.head? = some a → (a == c) = false)
    (h2 : ∀ a, s.data.getLast? = some a → (a == c) = false) :
    stripChar c s = s := by
  obtain ⟨l⟩ := s
  cases l with
  | nil => rfl
  | cons a t =>
    have ha : (a == c) = false := h1 a rfl
    unfold stripChar
    rw [List.dropWhile_cons, ha]
    simp only [Bool.false_eq_true, if_false]
    cases hr : (a :: t).reverse with
    | nil => exact absurd hr (by simp)
    | cons b r =>
      have hb : (a :: t).getLast? = some b := by
        rw [← List.head?_reverse, hr]
        rfl
      have hbc : (b == c) = false := h2 b hb
      rw [List.dropWhile_cons, hbc]
      simp only [Bool.false_eq_true, if_false]
      rw [← hr, List.reverse_reverse]

theorem noSurround_first (s : String) (h : noSurroundQuotes s = true) :
    ∀ a, s.data.head? = some a → isQuoteChar a = false := by
  intro a ha
  unfold noSurroundQuotes at h
  rw [ha] at h
  rw [Bool.and_eq_true] at h
  have := h.1
  simpa using this

theorem noSurround_last (s : String) (h : noSurroundQuotes s = true) :
    ∀ b, s.data.getLast? = some b → isQuoteChar b = false := by
  intro b hb
  unfold noSurroundQuotes at h
  rw [hb] at h
  rw [Bool.and_eq_true] at h
  have := h.2
  simpa using this

theorem isQuoteChar_false_dquote (a : Char) (h : isQuoteChar a = false) :
    (a == dquote) = false := by
  unfold isQuoteChar at h
  exact (Bool.or_eq_false_iff.1 h).1

theorem isQuoteChar_false_squote (a : Char) (h : isQuoteChar a = false) :
    (a == squote) = false := by
  unfold isQuoteChar at h
  exact (Bool.or_eq_false_iff.1 h).2

theorem stripQuotes_eq_self (s : String) (h : noSurroundQuotes s = true) :
    stripQuotes s = s := by
  unfold stripQuotes
  have hd : stripChar dquote s = s :=
    stripChar_eq_self dquote s
      (fun a ha => isQuoteChar_false_dquote a (noSurround_first s h a ha))
      (fun a ha => isQuoteChar_false_dquote a (noSurround_last s h a ha))
  rw [hd]
  exact stripChar_eq_self squote s
    (fun a ha => isQuoteChar_false_squote a (noSurround_first s h a ha))
    (fun a ha => isQuoteChar_false_squote a (noSurround_last s h a ha))

theorem analyze_status_eq (t : String) (hb : (t = "" || pyStrip t = "") = false) :
    (analyze_existing_alt_text t).status =
      (if rawScore t ≥ 80 then "compliant"
       else if rawScore t ≥ 40 then "poor"
       else "non_compliant") := by
  unfold analyze_existing_alt_text rawScore penRedundant penShort penLong penGeneric
    penFilename penCaps
  rw [hb]
  cases h1 : condRedundant t <;> cases h2 : condShort t <;> cases h3 : condLong t <;>
    cases h4 : condGeneric t <;> cases h5 : condFilename t <;> cases h6 : condCaps t <;>
    simp

/-! ## Helper lemmas: orchestrator -/

theorem all_models_tier (cfg : Settings) :
    ∀ p ∈ all_models cfg, p.2 = "free" ∨ p.2 = "paid" := by
  intro p hp
  unfold all_models at hp
  rcases List.mem_append.1 hp with h | h <;>
    rcases List.mem_map.1 h with ⟨m, _, rfl⟩ <;> simp

theorem runModels_success (oracle : Nat → Outcome) (text content : String) (elapsed : Nat) :
    ∀ (models : List (String × String)) (k i : Nat) (last : Option String)
      (name tier : String),
      models.get? k = some (name, tier) →
      (∀ j, j < k → isFailureOutcome (oracle (i + j)) = true) →
      oracle (i + k) = .response 200 text content elapsed →
      runModels oracle models i last =
        (.ok (successResult name tier content elapsed),
         (models.take (k + 1)).map Prod.fst) := by
  intro models
  induction models with
  | nil =>
    intro k i last name tier hget
    exact absurd hget (by simp)
  | cons head rest ih =>
    obtain ⟨model_name, mtier⟩ := head
    intro k i last name tier hget hfail hsucc
    cases k with
    | zero =>
      have h0 : oracle i = .response 200 text content elapsed := by
        simpa using hsucc
      have hnm : model_name = name ∧ mtier = tier := by
        simpa using hget
      obtain ⟨rfl, rfl⟩ := hnm
      simp [runModels, h0]
    | succ k =>
      have hf0 : isFailureOutcome (oracle i) = true := by
        have := hfail 0 (Nat.succ_pos _)
        simpa using this
      have hrest : ∀ j, j < k → isFailureOutcome (oracle (i + 1 + j)) = true := by
        intro j hj
        have h := hfail (j + 1) (Nat.succ_lt_succ hj)
        rw [show i + (j + 1) = i + 1 + j by omega] at h
        exact h
      have hsucc2 : oracle (i + 1 + k) = .response 200 text content elapsed := by
        rw [show i + 1 + k = i + (k + 1) by omega]
        exact hsucc
      have hget2 : rest.get? k = some (name, tier) := by
        simpa using hget
      cases ho : oracle i with
      | response code txt cont el =>
        have hcode : ¬ code = 200 := by
          rw [ho] at hf0
          simpa [isFailureOutcome] using hf0
        by_cases h429 : code = 429
        · simp only [runModels, ho, if_neg hcode, if_pos h429]
          rw [ih k (i + 1) _ name tier hget2 hrest hsucc2]
          simp
        · simp only [runModels, ho, if_neg hcode, if_neg h429]
          rw [ih k (i + 1) _ name tier hget2 hrest hsucc2]
          simp
      | exn msg =>
        simp only [runModels, ho]
        rw [ih k (i + 1) _ name tier hget2 hrest hsucc2]
        simp

theorem generate_success (cfg : Settings) (oracle : Nat → Outcome)
    (image_url image_base64 : Option String) (mime_type : String) (k : Nat)
    (name tier : String)
    (hkey : ¬ cfg.OPENROUTER_API_KEY = "") (hurl : truthy image_url = true)
    (hget : (all_models cfg).get? k = some (name, tier))
    (hfail : ∀ j, j < k → isFailureOutcome (oracle j) = true)
    (text content : String) (elapsed : Nat)
    (hsucc : oracle k = .response 200 text content elapsed) :
    generate_with_trace cfg oracle image_url image_base64 mime_type =
      (.ok (successResult name tier content elapsed),
       ((all_models cfg).take (k + 1)).map Prod.fst) := by
  unfold generate_with_trace
  rw [if_neg hkey]
  have himg : buildImageContent image_url image_base64 mime_type =
      some (.url (image_url.getD "")) := by
    unfold buildImageContent
    rw [hurl]
    simp
  rw [himg]
  have hrun := runModels_success oracle text content elapsed (all_models cfg) k 0 none
    name tier hget (by simpa using hfail) (by simpa using hsucc)
  simp only [hrun]

/-! ## Claim theorems -/

/-- C4: the scorer (a total function in this embedding, hence it never
raises) short-circuits on every empty or all-whitespace text, returning
score 0.0, status "missing", exactly one issue, and a recommendation
distinct from both recommendations of the non-missing path; no further
rule contributes an issue. -/
theorem scorer_blank_short_circuit (t : String)
    (hb : (t = "" || pyStrip t = "") = true) :
    analyze_existing_alt_text t =
      { score := 0
        status := "missing"
        issues := [missingMsg]
        recommendation :=
          "Add descriptive alt text that conveys the image content and purpose" } ∧
    (analyze_existing_alt_text t).score = 0 ∧
    (analyze_existing_alt_text t).status = "missing" ∧
    (analyze_existing_alt_text t).issues.length = 1 ∧
    ¬ (analyze_existing_alt_text t).recommendation = "Alt text is acceptable" ∧
    ¬ (analyze_existing_alt_text t).recommendation =
        "Consider improving alt text to better describe the image content" := by
  have h := analyze_blank_eq t hb
  refine ⟨h, ?_, ?_, ?_, ?_, ?_⟩ <;> rw [h] <;> decide

/-- Witness for C4 at the all-whitespace input `"   "`. -/
theorem scorer_blank_short_circuit_witness :
    (("   " : String) = "" || pyStrip "   " = "") = true ∧
    (analyze_existing_alt_text "   ").score = 0 ∧
    (analyze_existing_alt_text "   ").status = "missing" ∧
    (analyze_existing_alt_text "   ").issues.length = 1 := by
  have h := scorer_blank_short_circuit "   " (by decide)
  exact ⟨by decide, h.2.1, h.2.2.1, h.2.2.2.1⟩

/-- C5: every score lies in [0, 100], and on every non-blank input the
status is "compliant" iff score ≥ 80, "poor" iff 40 ≤ score < 80, and
"non_compliant" iff score < 40. -/
theorem scorer_range_and_status (t : String) :
    (0 ≤ (analyze_existing_alt_text t).score ∧
      (analyze_existing_alt_text t).score ≤ 100) ∧
    ((t = "" || pyStrip t = "") = false →
      (((analyze_existing_alt_text t).status = "compliant") ↔
        80 ≤ (analyze_existing_alt_text t).score) ∧
      (((analyze_existing_alt_text t).status = "poor") ↔
        (40 ≤ (analyze_existing_alt_text t).score ∧
          (analyze_existing_alt_text t).score < 80)) ∧
      (((analyze_existing_alt_text t).status = "non_compliant") ↔
        (analyze_existing_alt_text t).score < 40)) := by
  cases hb : (t = "" || pyStrip t = "") with
  | true =>
    have h := analyze_blank_eq t hb
    constructor
    · rw [h]
      constructor <;> norm_num
    · intro habs
      simp at habs
  | false =>
    have hs : (analyze_existing_alt_text t).score = rawScore t := by
      rw [analyze_score_eq t hb, pyRound1_rawScore]
    have hst := analyze_status_eq t hb
    constructor
    · rw [hs]
      exact ⟨rawScore_nonneg t, rawScore_le_100 t⟩
    · intro _
      rw [hs, hst]
      split_ifs with h80 h40
      · refine ⟨iff_of_true rfl h80, iff_of_false (by decide) ?_, iff_of_false (by decide) ?_⟩
        · rintro ⟨-, hlt⟩
          linarith
        · intro hlt
          linarith
      · have hlt80 : rawScore t < 80 := not_le.1 h80
        refine ⟨iff_of_false (by decide) h80, iff_of_true rfl ⟨h40, hlt80⟩,
          iff_of_false (by decide) ?_⟩
        intro hlt
        linarith
      · have hlt40 : rawScore t < 40 := not_le.1 h40
        refine ⟨iff_of_false (by decide) h80, iff_of_false (by decide) ?_,
          iff_of_true rfl hlt40⟩
        rintro ⟨hge, -⟩
        linarith

/-- Witness for C5 at the non-blank input `"image"` (score 35,
status "non_compliant"). -/
theorem scorer_range_and_status_witness :
    (0 ≤ (analyze_existing_alt_text "image").score ∧
      (analyze_existing_alt_text "image").score ≤ 100) ∧
    ((("image" : String) = "" || pyStrip "image" = "") = false) ∧
    (((analyze_existing_alt_text "image").status = "non_compliant") ↔
      (analyze_existing_alt_text "image").score < 40) := by
  have h := scorer_range_and_status "image"
  exact ⟨h.1, by decide, (h.2 (by decide)).2.2⟩

/-- C6: penalties compound additively with no deduplication:
`score("image")` fires both the too-short rule (−25) and the generic-term
rule (−40) and scores exactly 35; `score("photo.jpg")` fires both the
too-short rule (−25) and the filename-leakage rule (−50) and scores
exactly 25. -/
theorem scorer_compound_penalties :
    (analyze_existing_alt_text "image").score = 35 ∧
    (analyze_existing_alt_text "image").issues = [shortMsg "image", genericMsg] ∧
    (analyze_existing_alt_text "photo.jpg").score = 25 ∧
    (analyze_existing_alt_text "photo.jpg").issues =
      [shortMsg "photo.jpg", filenameMsg] := by
  refine ⟨?_, ?_, ?_, ?_⟩
  · rw [analyze_score_eq "image" (by decide), pyRound1_rawScore]
    unfold rawScore penRedundant penShort penLong penGeneric penFilename penCaps
    rw [(by decide : condRedundant "image" = false),
      (by decide : condShort "image" = true),
      (by decide : condLong "image" = false),
      (by decide : condGeneric "image" = true),
      (by decide : condFilename "image" = false),
      (by decide : condCaps "image" = false)]
    norm_num
  · rw [analyze_issues_eq "image" (by decide)]
    decide
  · rw [analyze_score_eq "photo.jpg" (by decide), pyRound1_rawScore]
    unfold rawScore penRedundant penShort penLong penGeneric penFilename penCaps
    rw [(by decide : condRedundant "photo.jpg" = false),
      (by decide : condShort "photo.jpg" = true),
      (by decide : condLong "photo.jpg" = false),
      (by decide : condGeneric "photo.jpg" = false),
      (by decide : condFilename "photo.jpg" = true),
      (by decide : condCaps "photo.jpg" = false)]
    norm_num
  · rw [analyze_issues_eq "photo.jpg" (by decide)]
    decide

/-- Counterexample to C7 as stated: `"image "` (trailing blank) is
non-blank and its trimmed form equals the generic term "image"
case-insensitively, yet the generic rule does not fire — the code compares
the *untrimmed* lowercased text — so the score is 75 (only −25), not the
claimed 35 with a −40 deduction. -/
theorem scorer_generic_untrimmed_counterexample :
    pyLower (pyStrip "image ") = "image" ∧
    genericTerms.contains (pyLower (pyStrip "image ")) = true ∧
    (("image " : String) = "" || pyStrip "image " = "") = false ∧
    ¬ genericMsg ∈ (analyze_existing_alt_text "image ").issues ∧
    (analyze_existing_alt_text "image ").score = 75 := by
  refine ⟨by decide, by decide, by decide, ?_, ?_⟩
  · rw [analyze_issues_eq "image " (by decide)]
    decide
  · rw [analyze_score_eq "image " (by decide), pyRound1_rawScore]
    unfold rawScore penRedundant penShort penLong penGeneric penFilename penCaps
    rw [(by decide : condRedundant "image " = false),
      (by decide : condShort "image " = true),
      (by decide : condLong "image " = false),
      (by decide : condGeneric "image " = false),
      (by decide : condFilename "image " = false),
      (by decide : condCaps "image " = false)]
    norm_num

/-- C7 (amended): for every non-blank text whose *untrimmed* lowercased
form equals a member of the fixed generic set, the scorer appends the
generic/non-descriptive issue and deducts 40 from the score. -/
theorem scorer_generic_rule (t : String)
    (hb : (t = "" || pyStrip t = "") = false)
    (hg : condGeneric t = true) :
    genericMsg ∈ (analyze_existing_alt_text t).issues ∧
    penGeneric t = 40 ∧
    (analyze_existing_alt_text t).score =
      pyRound1 (max 0 (100 - penRedundant t - penShort t - penLong t - 40 -
        penFilename t - penCaps t)) := by
  have hmem : genericMsg ∈ ruleIssues t := by
    unfold ruleIssues
    rw [hg]
    simp
  have hne : ¬ ruleIssues t = [] := List.ne_nil_of_mem hmem
  have hpen : penGeneric t = 40 := by
    unfold penGeneric
    rw [hg]
    rfl
  refine ⟨?_, hpen, ?_⟩
  · rw [analyze_issues_eq t hb, if_neg hne]
    exact hmem
  · rw [analyze_score_eq t hb]
    unfold rawScore
    rw [hpen]

/-- Witness for C7 (amended) at `"image"`. -/
theorem scorer_generic_rule_witness :
    condGeneric "image" = true ∧
    genericMsg ∈ (analyze_existing_alt_text "image").issues ∧
    penGeneric "image" = 40 := by
  have h := scorer_generic_rule "image" (by decide) (by decide)
  exact ⟨by decide, h.1, h.2.1⟩

/-- C10: the all-caps rule fires for every non-blank text longer than 5
characters that equals its own uppercase form — including texts with no
letters at all — appending the all-caps issue and deducting 10. -/
theorem scorer_allcaps_rule (t : String)
    (hb : (t = "" || pyStrip t = "") = false)
    (hu : pyUpper t = t) (hl : 5 < t.length) :
    condCaps t = true ∧
    capsMsg ∈ (analyze_existing_alt_text t).issues ∧
    penCaps t = 10 ∧
    (analyze_existing_alt_text t).score =
      pyRound1 (max 0 (100 - penRedundant t - penShort t - penLong t -
        penGeneric t - penFilename t - 10)) := by
  have hc : condCaps t = true := by
    unfold condCaps
    rw [hu]
    simp [hl]
  have hmem : capsMsg ∈ ruleIssues t := by
    unfold ruleIssues
    rw [hc]
    simp
  have hne : ¬ ruleIssues t = [] := List.ne_nil_of_mem hmem
  have hpen : penCaps t = 10 := by
    unfold penCaps
    rw [hc]
    rfl
  refine ⟨hc, ?_, hpen, ?_⟩
  · rw [analyze_issues_eq t hb, if_neg hne]
    exact hmem
  · rw [analyze_score_eq t hb]
    unfold rawScore
    rw [hpen]

/-- Witness for C10 at the all-digits input `"123456"` (no letters). -/
theorem scorer_allcaps_rule_witness :
    pyUpper "123456" = "123456" ∧ 5 < ("123456" : String).length ∧
    condCaps "123456" = true ∧
    capsMsg ∈ (analyze_existing_alt_text "123456").issues := by
  have h := scorer_allcaps_rule "123456" (by decide) (by decide) (by decide)
  exact ⟨by decide, by decide, h.1, h.2.1⟩

/-- Counterexample to C8 as stated: quote-stripping is not idempotent on
every string.  On `'"x"'` (a double-quoted x wrapped in single quotes) the
first pass leaves `"x"` — removing the single quotes exposes double quotes
— and a second pass strips further, to `x`. -/
theorem stripQuotes_not_idempotent_counterexample :
    ¬ stripQuotes (stripQuotes (String.mk [squote, dquote, Char.ofNat 120, dquote, squote])) =
      stripQuotes (String.mk [squote, dquote, Char.ofNat 120, dquote, squote]) := by
  decide

/-- C8 (amended): a string with no surrounding quote characters is
returned unchanged by the quote-stripping; consequently a second
application is the identity whenever the first pass's output has no
surrounding quote characters (this is the most a second pass can rely on —
idempotence fails in general, see the counterexample). -/
theorem stripQuotes_conditional_idempotent (s : String) :
    (noSurroundQuotes s = true → stripQuotes s = s) ∧
    (noSurroundQuotes (stripQuotes s) = true →
      stripQuotes (stripQuotes s) = stripQuotes s) :=
  ⟨fun h => stripQuotes_eq_self s h, fun h => stripQuotes_eq_self (stripQuotes s) h⟩

/-- Witness for C8 (amended) at `"abc"`. -/
theorem stripQuotes_conditional_idempotent_witness :
    noSurroundQuotes "abc" = true ∧ stripQuotes "abc" = "abc" := by
  have h := stripQuotes_conditional_idempotent "abc"
  exact ⟨by decide, h.1 (by decide)⟩

/-- C1: the candidate order is deterministic — free-tier candidates in
configured order strictly before paid-tier candidates in configured
order — and for a candidate list [free:a, free:b, paid:c], if the first
attempt fails and the second returns 200, the result's `model_used` is `b`
and `c` is never invoked. -/
theorem generate_free_before_paid (cfg : Settings) (oracle : Nat → Outcome)
    (image_url image_base64 : Option String) (mime_type : String)
    (a b c text content : String) (elapsed : Nat)
    (hfree : parseModels cfg.VISION_MODELS_FREE = [a, b])
    (hpaid : parseModels cfg.VISION_MODELS_PAID = [c])
    (hkey : ¬ cfg.OPENROUTER_API_KEY = "")
    (hurl : truthy image_url = true)
    (hfail : isFailureOutcome (oracle 0) = true)
    (hsucc : oracle 1 = .response 200 text content elapsed) :
    all_models cfg = [(a, "free"), (b, "free"), (c, "paid")] ∧
    generate_with_trace cfg oracle image_url image_base64 mime_type =
      (.ok (successResult b "free" content elapsed), [a, b]) ∧
    (successResult b "free" content elapsed).model_used = b ∧
    (¬ c = a → ¬ c = b →
      ¬ c ∈ (generate_with_trace cfg oracle image_url image_base64 mime_type).2) := by
  have hall : all_models cfg = [(a, "free"), (b, "free"), (c, "paid")] := by
    unfold all_models
    rw [hfree, hpaid]
    rfl
  have hget : (all_models cfg).get? 1 = some (b, "free") := by
    rw [hall]
    rfl
  have h := generate_success cfg oracle image_url image_base64 mime_type 1 b "free"
    hkey hurl hget
    (fun j hj => by
      have hj0 : j = 0 := Nat.lt_one_iff.1 hj
      subst hj0
      exact hfail)
    text content elapsed hsucc
  have htrace : ((all_models cfg).take 2).map Prod.fst = [a, b] := by
    rw [hall]
    rfl
  have hgen : generate_with_trace cfg oracle image_url image_base64 mime_type =
      (.ok (successResult b "free" content elapsed), [a, b]) := by
    rw [h, htrace]
  refine ⟨hall, hgen, rfl, ?_⟩
  intro hca hcb
  rw [hgen]
  simp [hca, hcb]

/-- Witness for C1 with candidates "A,B" (free) and "C" (paid), attempt 0
rate-limited and attempt 1 succeeding. -/
theorem generate_free_before_paid_witness :
    parseModels "A,B" = ["A", "B"] ∧ parseModels "C" = ["C"] ∧
    generate_with_trace ⟨"key", "A,B", "C"⟩
        (fun j => if j = 0 then .response 429 "slow down" "" 1
                  else .response 200 "ok" "a dog" 12)
        (some "http://img") none "image/jpeg" =
      (.ok (successResult "B" "free" "a dog" 12), ["A", "B"]) := by
  have h := generate_free_before_paid ⟨"key", "A,B", "C"⟩
    (fun j => if j = 0 then .response 429 "slow down" "" 1
              else .response 200 "ok" "a dog" 12)
    (some "http://img") none "image/jpeg" "A" "B" "C" "ok" "a dog" 12
    (by decide) (by decide) (by decide) (by decide) rfl rfl
  exact ⟨by decide, by decide, h.2.1⟩

/-- Counterexample to C2 as stated: a 2xx status that is not exactly 200
(here 201) is *not* treated as success — the attempt is recorded as a
failure and the loop moves on, exhausting the list. -/
theorem generate_201_not_success_counterexample :
    (200 ≤ 201 ∧ 201 < 300) ∧
    generate_with_trace ⟨"key", "A", ""⟩
        (fun _ => .response 201 "Created" "a cat" 7)
        (some "http://img") none "image/jpeg" =
      (.error (.allFailed (some "201: Created")), ["A"]) := by
  exact ⟨⟨by decide, by decide⟩, rfl⟩

/-- C2 (amended, 2xx → exactly 200): on the first attempt whose response
status is exactly 200, the orchestrator returns immediately — invoking only
the first k+1 candidates — with the raw content whitespace- and
quote-stripped, the elapsed time of that attempt alone, and the tier-derived
constants (free: carbon 0.5, confidence 0.85; paid: carbon 2.0,
confidence 0.92; the tier is always one of the two). -/
theorem generate_first_200_wins (cfg : Settings) (oracle : Nat → Outcome)
    (image_url image_base64 : Option String) (mime_type : String)
    (k : Nat) (name tier text content : String) (elapsed : Nat)
    (hkey : ¬ cfg.OPENROUTER_API_KEY = "")
    (hurl : truthy image_url = true)
    (hget : (all_models cfg).get? k = some (name, tier))
    (hfail : ∀ j, j < k → isFailureOutcome (oracle j) = true)
    (hsucc : oracle k = .response 200 text content elapsed) :
    generate_with_trace cfg oracle image_url image_base64 mime_type =
      (.ok (successResult name tier content elapsed),
       ((all_models cfg).take (k + 1)).map Prod.fst) ∧
    (successResult name tier content elapsed).alt_text =
      stripQuotes (pyStrip content) ∧
    (successResult name tier content elapsed).model_used = name ∧
    (successResult name tier content elapsed).processing_time_ms = elapsed ∧
    (tier = "free" →
      (successResult name tier content elapsed).carbon_cost_mg = 0.5 ∧
      (successResult name tier content elapsed).confidence = 0.85) ∧
    (tier = "paid" →
      (successResult name tier content elapsed).carbon_cost_mg = 2.0 ∧
      (successResult name tier content elapsed).confidence = 0.92) ∧
    (tier = "free" ∨ tier = "paid") ∧
    (generate_with_trace cfg oracle image_url image_base64 mime_type).2.length =
      min (k + 1) (all_models cfg).length := by
  have h := generate_success cfg oracle image_url image_base64 mime_type k name tier
    hkey hurl hget hfail text content elapsed hsucc
  have htier : tier = "free" ∨ tier = "paid" := by
    have hm : (name, tier) ∈ all_models cfg := List.get?_mem hget
    exact all_models_tier cfg (name, tier) hm
  refine ⟨h, rfl, rfl, rfl, ?_, ?_, htier, ?_⟩
  · intro hfree
    subst hfree
    exact ⟨rfl, rfl⟩
  · intro hpaid
    subst hpaid
    exact ⟨rfl, rfl⟩
  · rw [h]
    simp

/-- Witness for C2 (amended): free list "A,B", attempt 0 raises, attempt 1
returns 200 with elapsed 42 ms. -/
theorem generate_first_200_wins_witness :
    (all_models ⟨"key", "A,B", "C"⟩).get? 1 = some ("B", "free") ∧
    generate_with_trace ⟨"key", "A,B", "C"⟩
        (fun j => if j = 0 then .exn "boom" else .response 200 "ok" "a dog" 42)
        (some "http://img") none "image/jpeg" =
      (.ok (successResult "B" "free" "a dog" 42),
       ((all_models ⟨"key", "A,B", "C"⟩).take 2).map Prod.fst) ∧
    (successResult "B" "free" "a dog" 42).processing_time_ms = 42 := by
  have h := generate_first_200_wins ⟨"key", "A,B", "C"⟩
    (fun j => if j = 0 then .exn "boom" else .response 200 "ok" "a dog" 42)
    (some "http://img") none "image/jpeg" 1 "B" "free" "ok" "a dog" 42
    (by decide) (by decide) (by decide)
    (fun j hj => by
      have hj0 : j = 0 := Nat.lt_one_iff.1 hj
      subst hj0
      rfl)
    rfl
  exact ⟨by decide, h.1, h.2.2.2.1⟩

/-- Counterexample to C3 as stated: supplying *both* image sources does
not raise `InputError` — the `if image_url: ... elif image_base64:` chain
silently prefers the URL and generation proceeds. -/
theorem generate_both_sources_counterexample :
    truthy (some "http://example.com/cat.jpg") = true ∧
    truthy (some "Zm9v") = true ∧
    generate_with_trace ⟨"key", "A", ""⟩
        (fun _ => .response 200 "ok" "a cat" 3)
        (some "http://example.com/cat.jpg") (some "Zm9v") "image/png" =
      (.ok (successResult "A" "free" "a cat" 3), ["A"]) := by
  exact ⟨by decide, by decide, rfl⟩

/-- C3 (amended): with a configured credential, `generate` raises
`InputError` iff *neither* image source is truthy — regardless of every
other argument; when both are supplied the URL wins and no error is
raised. -/
theorem generate_input_error_iff (cfg : Settings) (oracle : Nat → Outcome)
    (image_url image_base64 : Option String) (mime_type : String)
    (hkey : ¬ cfg.OPENROUTER_API_KEY = "") :
    ((generate_with_trace cfg oracle image_url image_base64 mime_type).1 =
      .error (.inputError "Either image_url or image_base64 must be provided")) ↔
    (truthy image_url = false ∧ truthy image_base64 = false) := by
  unfold generate_with_trace buildImageContent
  rw [if_neg hkey]
  cases hu : truthy image_url with
  | true =>
    cases hr : (runModels oracle (all_models cfg) 0 none).1 <;> simp [hr]
  | false =>
    cases hb : truthy image_base64 with
    | true =>
      cases hr : (runModels oracle (all_models cfg) 0 none).1 <;> simp [hr]
    | false =>
      simp

/-- Witness for C3 (amended): neither source supplied yields `InputError`. -/
theorem generate_input_error_iff_witness :
    (generate_with_trace ⟨"key", "A", ""⟩ (fun _ => .exn "down")
        none none "image/jpeg").1 =
      .error (.inputError "Either image_url or image_base64 must be provided") := by
  exact (generate_input_error_iff ⟨"key", "A", ""⟩ (fun _ => .exn "down")
    none none "image/jpeg" (by decide)).2 ⟨rfl, rfl⟩

/-- C9: with a configured credential and exactly one image source, if both
configured model lists parse to no non-blank entries, `generate` performs
no inference attempt (empty trace) and immediately raises the exhausted
error carrying `None` as the last observed error. -/
theorem generate_no_candidates (cfg : Settings) (oracle : Nat → Outcome)
    (image_url : Option String) (mime_type : String)
    (hfree : parseModels cfg.VISION_MODELS_FREE = [])
    (hpaid : parseModels cfg.VISION_MODELS_PAID = [])
    (hkey : ¬ cfg.OPENROUTER_API_KEY = "")
    (hurl : truthy image_url = true) :
    generate_with_trace cfg oracle image_url none mime_type =
      (.error (.allFailed none), []) := by
  unfold generate_with_trace
  rw [if_neg hkey]
  have himg : buildImageContent image_url none mime_type =
      some (.url (image_url.getD "")) := by
    unfold buildImageContent
    rw [hurl]
    simp
  rw [himg]
  have hall : all_models cfg = [] := by
    unfold all_models
    rw [hfree, hpaid]
    rfl
  rw [hall]
  rfl

/-- Witness for C9 with whitespace-and-comma-only model lists. -/
theorem generate_no_candidates_witness :
    parseModels " , " = [] ∧ parseModels "" = [] ∧
    generate_with_trace ⟨"key", " , ", ""⟩ (fun _ => .exn "never invoked")
        (some "http://img") none "image/jpeg" =
      (.error (.allFailed none), []) := by
  refine ⟨by decide, by decide, ?_⟩
  exact generate_no_candidates ⟨"key", " , ", ""⟩ (fun _ => .exn "never invoked")
    (some "http://img") "image/jpeg" (by decide) (by decide) (by decide) (by decide)

end AltText
